import Mathlib

/-!
# Verification of the Population-Dashboard data pipeline

Shallow embedding of the pipeline code (`src/data_pipeline/`) of the
Population-Dashboard repository, together with theorems settling the
specification claims about it.

Conventions of the embedding:
* Python floats (timestamps, population values) are modelled as `ℚ`;
  the claims under study are structural (which entries exist, strict
  comparisons, exact reconciliation of sums), not float-rounding facts.
* Python dicts that are built by insertion are modelled as association
  lists in insertion order, or as functions `String → Option _` when a
  claim only reads them pointwise.
* External library calls (HTTP download, `rasterio` mask computation,
  CRS reprojection) are passed in as function parameters; everything the
  repository's own code does with their results is translated literally.
* Fallible code returns `Option`/`Except`; a caught-and-logged Python
  exception becomes a `none`/`.error` branch.
-/

namespace PopPipeline

/-! ## config.py -/

/-- `WORLDPOP_BASE_URL` from `config.py`. -/
def WORLDPOP_BASE_URL : String :=
  "https://data.worldpop.org/GIS/AgeSex_structures/Global_2015_2030_2025/1km_ua/constrained"

/-- `COUNTRIES` from `config.py` (dict, in insertion order). -/
def COUNTRIES : List (String × String) := [("KEN", "Kenya"), ("UGA", "Uganda")]

/-- `AGE_GROUPS` from `config.py`. -/
def AGE_GROUPS : List String :=
  ["0_4", "5_9", "10_14", "15_19", "20_24", "25_29",
   "30_34", "35_39", "40_44", "45_49", "50_54",
   "55_59", "60_64", "65_69", "70_74", "75_79", "80_plus"]

/-- `SEX_OPTIONS` from `config.py`. -/
def SEX_OPTIONS : List String := ["M", "F"]

/-- `CACHE_MAX_AGE` from `config.py`: 24 hours in seconds. -/
def CACHE_MAX_AGE : ℚ := 24 * 60 * 60

/-! ## cache_utils.py

The cache directory holds, per cache key `k`, a payload file `k.tif` and a
sidecar metadata file `k.json`.  We model the directory pointwise: payloads
and metadata records keyed by the cache key.  A metadata file that exists
but cannot be parsed (corrupt JSON, missing `timestamp` field) is
`MetaFile.corrupt`. -/

/-- The sidecar metadata record written by `download_file`:
`{'url': url, 'timestamp': time.time(), 'size': ...}`. -/
structure CacheMeta where
  url : String
  timestamp : ℚ
  size : Nat
  deriving DecidableEq, Repr

/-- A metadata file on disk: either a readable record or unreadable/corrupt
content (on which `json.load` or the `['timestamp']` access raises). -/
inductive MetaFile where
  | ok (m : CacheMeta)
  | corrupt
  deriving DecidableEq, Repr

/-- State of the cache directory, read pointwise by cache key. -/
structure CacheDir where
  /-- payload file `key.tif`, when present: its bytes -/
  payloads : String → Option (List Nat)
  /-- metadata file `key.json`, when present -/
  metas : String → Option MetaFile

/-- `generate_cache_key` (`cache_utils.py:11`) is `hashlib.md5(url).hexdigest()`:
a deterministic digest of the URL, collision-negligible per the spec.  The
digest itself is not translatable; it is modelled as the identity on the URL,
which preserves exactly the properties the code relies on (determinism, and
distinct keys for distinct URLs). -/
def generate_cache_key (url : String) : String := url

/-- `get_cached_file` (`cache_utils.py:15`): returns the payload path iff both
payload and metadata files exist, the metadata is readable, and
`time.time() - metadata['timestamp'] < max_age` (strict).  A corrupt metadata
file makes `json.load` raise; the `except` branch logs a warning and falls
through to `return None`. -/
def get_cached_file (dir : CacheDir) (url : String) (now : ℚ)
    (max_age : ℚ := CACHE_MAX_AGE) : Option String :=
  match dir.payloads (generate_cache_key url), dir.metas (generate_cache_key url) with
  | some _, some (MetaFile.ok m) =>
      if now - m.timestamp < max_age then some (generate_cache_key url ++ ".tif") else none
  | some _, some MetaFile.corrupt => none
  | _, _ => none

/-- The success path of `download_file` (`cache_utils.py:47`): the streamed
chunks are written to `key.tif`, then metadata `{url, timestamp = now, size}`
is written to `key.json`; the payload path is returned.  (On failure the
partial payload is unlinked and the exception re-raised; the round-trip claim
concerns the success path.)  The chunk list models `response.iter_content`. -/
def download_file (dir : CacheDir) (url : String) (chunks : List (List Nat))
    (now : ℚ) : CacheDir × String :=
  let cache_key := generate_cache_key url
  let payload := chunks.flatten
  let dir' : CacheDir :=
    { payloads := fun k => if k = cache_key then some payload else dir.payloads k
      metas := fun k =>
        if k = cache_key then
          some (MetaFile.ok { url := url, timestamp := now, size := payload.length })
        else dir.metas k }
  (dir', cache_key ++ ".tif")

/-! ## load_rasters.py -/

/-- A decoded raster grid: a 2-D numeric array, row-major. -/
abbrev Grid := List (List ℚ)

/-- The spatial profile of a raster (`src.profile`): the fields the pipeline
reads.  The affine transform is an opaque token, consumed only by the
external mask computation. -/
structure Profile where
  crs : Option String
  width : Nat
  height : Nat
  transform : String
  nodata : Option ℚ
  deriving DecidableEq, Repr

/-- `src.bounds`: the bounding box of a raster. -/
structure Bounds where
  left : ℚ
  bottom : ℚ
  right : ℚ
  top : ℚ
  deriving DecidableEq, Repr

/-- The `{'data': ..., 'profile': ..., 'bounds': ...}` record stored by
`batch_load_rasters` (`load_rasters.py:126`).  `data` is an `Option` because
`create_metadata_summary` and `export_metadata_to_csv` inspect
`raster_info.get('data') is not None`. -/
structure RasterInfo where
  data : Option Grid
  profile : Profile
  bounds : Option Bounds
  deriving DecidableEq, Repr

/-- `RasterLoader.get_raster_url` (`load_rasters.py:16`):
`filename = f"{sex}_{age_group}.tif"`;
`url = f"{WORLDPOP_BASE_URL}/{country}/v1.0/{filename}"`. -/
def get_raster_url (country sex age_group : String) : String :=
  WORLDPOP_BASE_URL ++ "/" ++ country ++ "/v1.0/" ++ (sex ++ "_" ++ age_group ++ ".tif")

/-- `RasterLoader.batch_load_rasters` (`load_rasters.py:98`).  The per-raster
I/O (`self.load_raster`, which catches every exception and returns the triple
`(None, None, None)`) is a function parameter; `none` models the failure
triple.  The triple nested loop builds nested dicts in insertion order; an
entry is inserted only when `data is not None` — the `else` branch merely
logs a warning, so a failed combination leaves no entry behind. -/
def batch_load_rasters
    (load_raster : String → String → String → Option (Grid × Profile × Bounds))
    (countries : List String := COUNTRIES.map Prod.fst)
    (age_groups : List String := AGE_GROUPS)
    (sex_options : List String := SEX_OPTIONS) :
    List (String × List (String × List (String × RasterInfo))) :=
  countries.map fun country =>
    (country, sex_options.map fun sex =>
      (sex, age_groups.filterMap fun age_group =>
        match load_raster country sex age_group with
        | some (data, profile, bounds) =>
            some (age_group,
              { data := some data, profile := profile, bounds := some bounds })
        | none => none))

/-! ## extract_metadata.py: run summary -/

/-- The summary dict built by `create_metadata_summary`
(`extract_metadata.py:95`).  `spatial_info` is omitted: it stores
external-library metadata (crs/bounds/shape snapshots) consulted by no claim
and by no downstream code of the pipeline. -/
structure MetadataSummary where
  total_rasters : Nat
  countries : List String
  age_groups : List String
  failed_rasters : List String
  deriving DecidableEq, Repr

/-- `set.add` followed by the final `list(...)` conversion: a Python `set`
enumerates each element once, in an unspecified order; we fix insertion
order, which is one enumeration of the same elements. -/
def addSet (l : List String) (x : String) : List String :=
  if x ∈ l then l else l ++ [x]

/-- Innermost loop of `create_metadata_summary`: over the `age_group` dict of
one `(country, sex)`.  A loaded entry bumps `total_rasters` and records the
age group; an entry with `data is None` appends
`f"{country}_{sex}_{age_group}"` to `failed_rasters`. -/
def summary_add_entries (c s : String) :
    MetadataSummary → List (String × RasterInfo) → MetadataSummary
  | acc, [] => acc
  | acc, (a, ri) :: rest =>
      summary_add_entries c s
        (match ri.data with
         | some _ =>
             { acc with total_rasters := acc.total_rasters + 1,
                        age_groups := addSet acc.age_groups a }
         | none =>
             { acc with failed_rasters :=
                 acc.failed_rasters ++ [c ++ "_" ++ s ++ "_" ++ a] })
        rest

/-- Middle loop of `create_metadata_summary`: over the sexes of one country. -/
def summary_add_sexes (c : String) :
    MetadataSummary → List (String × List (String × RasterInfo)) → MetadataSummary
  | acc, [] => acc
  | acc, (s, entries) :: rest =>
      summary_add_sexes c (summary_add_entries c s acc entries) rest

/-- Outer loop of `create_metadata_summary`: over countries; each country is
first added to the `countries` set. -/
def summary_add_countries :
    MetadataSummary → List (String × List (String × List (String × RasterInfo))) →
      MetadataSummary
  | acc, [] => acc
  | acc, (c, cd) :: rest =>
      summary_add_countries
        (summary_add_sexes c { acc with countries := addSet acc.countries c } cd) rest

/-- `create_metadata_summary` (`extract_metadata.py:95`). -/
def create_metadata_summary
    (raster_data : List (String × List (String × List (String × RasterInfo)))) :
    MetadataSummary :=
  summary_add_countries
    { total_rasters := 0, countries := [], age_groups := [], failed_rasters := [] }
    raster_data

/-! ## extract_metadata.py: filename parsing and validation -/

/-- `Path(filename).name`: the component after the last `/`. -/
def basename_chars (cs : List Char) : List Char :=
  cs.foldl (fun acc c => if c = '/' then [] else acc ++ [c]) []

/-- The character class `[a-z_]` of the filename pattern. -/
def is_lower_or_underscore (c : Char) : Bool :=
  decide (('a' ≤ c ∧ c ≤ 'z') ∨ c = '_')

/-- `int(...)` on a digit string. -/
def chars_to_nat (ds : List Char) : Nat :=
  ds.foldl (fun n c => 10 * n + (c.toNat - Char.toNat '0')) 0

/-- The dict returned by `parse_filename` (`extract_metadata.py:39`). -/
structure ParsedMetadata where
  sex : String
  age_start : Nat
  age_end : String
  age_group : String
  filename : String
  deriving DecidableEq, Repr

/-- `parse_filename` (`extract_metadata.py:8`): match the basename against
`^([MF])_(\d+)_(\d+|[a-z_]+)\.tif$` and, on a match, build the metadata
dict; `age_group` is `f"{age_start}+"` when `age_end == 'plus'`, else
`f"{age_start}_{age_end}"`.  The regex is translated exhaustively: sex
letter, `_`, a maximal (the `\d+` is followed by `_`, on which backtracking
into the digit run can never succeed) nonempty digit run, `_`, and a
nonempty tail that is all digits or all `[a-z_]` and runs to the literal
`.tif` suffix. -/
def parse_filename (filename : String) : Option ParsedMetadata :=
  let b := basename_chars filename.data
  match b.reverse with
  | 'f' :: 'i' :: 't' :: '.' :: stemRev =>
      (match stemRev.reverse with
       | c0 :: '_' :: rest =>
           if c0 = 'M' ∨ c0 = 'F' then
             let ds := rest.takeWhile Char.isDigit
             match rest.drop ds.length with
             | '_' :: t =>
                 if ds ≠ [] ∧ t ≠ [] ∧ (t.all Char.isDigit ∨ t.all is_lower_or_underscore) then
                   let age_start_str := String.mk ds
                   let age_end_str := String.mk t
                   some { sex := String.mk [c0]
                          age_start := chars_to_nat ds
                          age_end := age_end_str
                          age_group :=
                            if age_end_str = "plus" then age_start_str ++ "+"
                            else age_start_str ++ "_" ++ age_end_str
                          filename := String.mk b }
                 else none
             | _ => none
           else none
       | _ => none)
  | _ => none

/-- Python's substring test `needle in haystack`: some contiguous slice of
the haystack equals the needle. -/
def str_contains (haystack needle : String) : Bool :=
  (List.range (haystack.data.length + 1)).any fun i =>
    decide ((haystack.data.drop i).take needle.data.length = needle.data)

/-- `validate_metadata` (`extract_metadata.py:66`): `False` for `None`
input; the three required fields are always present on a parsed record (the
structure carries them); then the sex must be in `SEX_OPTIONS` and the age
group must be in `AGE_GROUPS` or contain some member of `AGE_GROUPS` as a
substring. -/
def validate_metadata : Option ParsedMetadata → Bool
  | none => false
  | some m =>
      if m.sex ∉ SEX_OPTIONS then false
      else if m.age_group ∉ AGE_GROUPS ∧
          (AGE_GROUPS.any fun ag => str_contains m.age_group ag) = false then false
      else true

/-! ## summarize_by_district.py -/

/-- One row of a normalized boundary set, after `load_admin_boundaries`
(`summarize_by_district.py:17`) renames `NAME_1/NAME_2/GID_2` to
`region/district/district_id`.  The polygon geometry is an opaque token,
consumed only by the external mask computation. -/
structure DistrictBoundary where
  district_id : String
  district : String
  region : String
  geometry : String
  deriving DecidableEq, Repr

/-- The per-district aggregation record appended at
`summarize_by_district.py:80`. -/
structure DistrictRec where
  district_id : String
  district : String
  region : String
  population : ℚ
  pixel_count : Nat
  deriving DecidableEq, Repr

/-- Body of the per-district loop of `summarize_raster_by_districts`
(`summarize_by_district.py:57`–`90`).  The external
`rasterio.features.geometry_mask([geom], out_shape, transform, invert=True)`
call — the loop's exception source, e.g. on a degenerate geometry — is the
function parameter `geometry_mask`, returning the boolean mask flattened
row-major like the raster; `Except.error` models a raised exception, which
the `except` branch catches, logs, and turns into `continue` (`none` here).
The rest is literal: extract the masked cells, drop nodata-sentinel values
when a nodata value is set, sum the remainder (`np.sum` of an empty
selection and the explicit `else 0` both give 0, as `List.sum [] = 0`
does). -/
def process_district (geometry_mask : String → Profile → Except String (List Bool))
    (raster_data : List ℚ) (profile : Profile) (district : DistrictBoundary) :
    Option DistrictRec :=
  match geometry_mask district.geometry profile with
  | Except.error _ => none
  | Except.ok district_mask =>
      let district_data :=
        (raster_data.zip district_mask).filterMap fun p => if p.2 then some p.1 else none
      let valid_data :=
        match profile.nodata with
        | some nd => district_data.filter fun v => decide (v ≠ nd)
        | none => district_data
      some { district_id := district.district_id, district := district.district,
             region := district.region,
             population := valid_data.sum, pixel_count := valid_data.length }

/-- `DistrictSummarizer.summarize_raster_by_districts`
(`summarize_by_district.py:33`): `None` when no boundaries are loaded for the
country; otherwise the per-district loop, failed districts skipped.  The CRS
reprojection (`to_crs`, line 53) changes only the geometries the mask
parameter consumes, and the final `GeoDataFrame(results, geometry=...)`
attaches a geometry column read by no downstream pipeline code; both are
absorbed into `geometry_mask`/the record list. -/
def summarize_raster_by_districts
    (geometry_mask : String → Profile → Except String (List Bool))
    (admin_boundaries : List (String × List DistrictBoundary))
    (raster_data : List ℚ) (profile : Profile) (country : String) :
    Option (List DistrictRec) :=
  match admin_boundaries.lookup country with
  | none => none
  | some districts_gdf =>
      some (districts_gdf.filterMap (process_district geometry_mask raster_data profile))

/-- One row of the combined summary table: the record dict built at
`summarize_by_district.py:149`. -/
structure CombinedRow where
  country : String
  sex : String
  age_group : String
  district_id : String
  district : String
  region : String
  population : ℚ
  deriving DecidableEq, Repr

/-- `DistrictSummarizer.create_combined_summary`
(`summarize_by_district.py:132`): flatten the nested summaries into one
record per district row.  (The `if district_gdf is not None` guard is
vacuous on the pipeline's own data: `batch_summarize_rasters` stores only
non-`None` summaries.) -/
def create_combined_summary
    (summaries : List (String × List (String × List (String × List DistrictRec)))) :
    List CombinedRow :=
  summaries.flatMap fun cp => cp.2.flatMap fun sp => sp.2.flatMap fun ap =>
    ap.2.map fun row =>
      { country := cp.1, sex := sp.1, age_group := ap.1,
        district_id := row.district_id, district := row.district,
        region := row.region, population := row.population }

/-- A pandas cell value: string or numeric. -/
inductive CellVal where
  | str (s : String)
  | num (q : ℚ)
  deriving DecidableEq, Repr

/-- A combined-summary row as the key-ordered dict literal of
`summarize_by_district.py:149`: the keys, in insertion order, are
`country, sex, age_group, district_id, district, region, population`. -/
def row_record (r : CombinedRow) : List (String × CellVal) :=
  [("country", CellVal.str r.country), ("sex", CellVal.str r.sex),
   ("age_group", CellVal.str r.age_group), ("district_id", CellVal.str r.district_id),
   ("district", CellVal.str r.district), ("region", CellVal.str r.region),
   ("population", CellVal.num r.population)]

/-- Key-set accumulation of `pd.DataFrame(list_of_dicts)`: the union of the
records' keys, in order of first appearance. -/
def add_keys (acc : List String) (ks : List String) : List String :=
  ks.foldl (fun acc k => if k ∈ acc then acc else acc ++ [k]) acc

/-- The column list of `pd.DataFrame(records)`. -/
def df_columns (records : List (List (String × CellVal))) : List String :=
  records.foldl (fun acc r => add_keys acc (r.map Prod.fst)) []

/-- Columns of the DataFrame returned by `create_combined_summary`. -/
def combined_df_columns (tbl : List CombinedRow) : List String :=
  df_columns (tbl.map row_record)

/-! ### calculate_demographic_indicators -/

/-- The `age_bins['children']` list (`summarize_by_district.py:179`). -/
def age_bins_children : List String := ["0_4", "5_9", "10_14"]

/-- The `age_bins['working_age']` list (`summarize_by_district.py:180`). -/
def age_bins_working : List String :=
  ["15_19", "20_24", "25_29", "30_34", "35_39", "40_44", "45_49", "50_54", "55_59"]

/-- The `age_bins['elderly']` list (`summarize_by_district.py:181`). -/
def age_bins_elderly : List String := ["60_64", "65_69", "70_74", "75_79", "80_plus"]

/-- The groupby key `(country, district_id, district)`. -/
abbrev GroupKey := String × String × String

/-- Key of a combined-summary row. -/
def row_key (r : CombinedRow) : GroupKey := (r.country, r.district_id, r.district)

/-- The distinct group keys of `combined_summary.groupby(['country',
'district_id', 'district'])`.  pandas enumerates each distinct key exactly
once (in sorted order); `dedup` enumerates the same distinct keys — the
enumeration order is immaterial to every property proved below. -/
def group_keys (tbl : List CombinedRow) : List GroupKey := (tbl.map row_key).dedup

/-- The rows of one groupby group. -/
def group_rows (tbl : List CombinedRow) (k : GroupKey) : List CombinedRow :=
  tbl.filter fun r => decide (row_key r = k)

/-- `group['population'].sum()` over a list of rows. -/
def sum_pop (rows : List CombinedRow) : ℚ := (rows.map CombinedRow.population).sum

/-- One row of the demographic-indicator table: the dict appended at
`summarize_by_district.py:200`. -/
structure IndicatorRow where
  country : String
  district_id : String
  district : String
  total_population : ℚ
  child_percentage : ℚ
  working_age_percentage : ℚ
  elderly_percentage : ℚ
  sex_ratio : ℚ
  male_population : ℚ
  female_population : ℚ
  deriving DecidableEq, Repr

/-- The loop body of `calculate_demographic_indicators` for one group
(`summarize_by_district.py:186`–`211`): `None` when `total_pop > 0` fails
(the group is not appended). -/
def indicators_for (tbl : List CombinedRow) (k : GroupKey) : Option IndicatorRow :=
  let group := group_rows tbl k
  let total_pop := sum_pop group
  if 0 < total_pop then
    let children_pop := sum_pop (group.filter fun r => decide (r.age_group ∈ age_bins_children))
    let working_pop := sum_pop (group.filter fun r => decide (r.age_group ∈ age_bins_working))
    let elderly_pop := sum_pop (group.filter fun r => decide (r.age_group ∈ age_bins_elderly))
    let male_pop := sum_pop (group.filter fun r => decide (r.sex = "M"))
    let female_pop := sum_pop (group.filter fun r => decide (r.sex = "F"))
    some { country := k.1, district_id := k.2.1, district := k.2.2,
           total_population := total_pop,
           child_percentage := children_pop / total_pop * 100,
           working_age_percentage := working_pop / total_pop * 100,
           elderly_percentage := elderly_pop / total_pop * 100,
           sex_ratio := if 0 < female_pop then male_pop / female_pop else 0,
           male_population := male_pop, female_population := female_pop }
  else none

/-- `DistrictSummarizer.calculate_demographic_indicators`
(`summarize_by_district.py:162`): one candidate row per distinct group key.
(The `district_totals` frame computed at line 173 is dead code: the loop
recomputes every group sum.) -/
def calculate_demographic_indicators (tbl : List CombinedRow) : List IndicatorRow :=
  (group_keys tbl).filterMap (indicators_for tbl)

/-! ### Concrete fixtures used by witnesses and counterexamples -/

/-- A boundary whose geometry masks fine. -/
def exDistrictA : DistrictBoundary :=
  { district_id := "KEN.1_1", district := "DistrictA", region := "RegionA", geometry := "geomA" }

/-- A boundary with a degenerate geometry. -/
def exDistrictBad : DistrictBoundary :=
  { district_id := "KEN.2_1", district := "DistrictBad", region := "RegionB", geometry := "geomBad" }

/-- Another well-behaved boundary. -/
def exDistrictC : DistrictBoundary :=
  { district_id := "KEN.3_1", district := "DistrictC", region := "RegionC", geometry := "geomC" }

/-- A mask computation that raises exactly on the degenerate geometry. -/
def exMask : String → Profile → Except String (List Bool) :=
  fun g _ => if g = "geomBad" then Except.error "degenerate geometry" else Except.ok [true]

/-- A 1×1 profile without a nodata sentinel. -/
def exProfile : Profile :=
  { crs := some "EPSG:4326", width := 1, height := 1, transform := "t", nodata := none }

/-- Boundary registry with the three fixtures for KEN. -/
def exAdmin : List (String × List DistrictBoundary) :=
  [("KEN", [exDistrictA, exDistrictBad, exDistrictC])]

/-- A combined table whose single district group totals 0. -/
def exTblZero : List CombinedRow :=
  [{ country := "KEN", sex := "M", age_group := "0_4", district_id := "KEN.1_1",
     district := "Nairobi", region := "Nairobi", population := 0 }]

/-- A combined table with one male row of population 5. -/
def exTblM : List CombinedRow :=
  [{ country := "KEN", sex := "M", age_group := "0_4", district_id := "KEN.1_1",
     district := "Nairobi", region := "Nairobi", population := 5 }]

/-- A combined table with one female row of population 5 (male total 0). -/
def exTblF : List CombinedRow :=
  [{ country := "KEN", sex := "F", age_group := "0_4", district_id := "KEN.1_1",
     district := "Nairobi", region := "Nairobi", population := 5 }]

/-- The indicator row computed for `exTblM`. -/
def exIndM : IndicatorRow :=
  { country := "KEN", district_id := "KEN.1_1", district := "Nairobi",
    total_population := 5, child_percentage := 100, working_age_percentage := 0,
    elderly_percentage := 0, sex_ratio := 0, male_population := 5,
    female_population := 0 }

/-- The indicator row computed for `exTblF`. -/
def exIndF : IndicatorRow :=
  { country := "KEN", district_id := "KEN.1_1", district := "Nairobi",
    total_population := 5, child_percentage := 100, working_age_percentage := 0,
    elderly_percentage := 0, sex_ratio := 0, male_population := 0,
    female_population := 5 }

/-- A one-row nested summaries input. -/
def exSummaries : List (String × List (String × List (String × List DistrictRec))) :=
  [("KEN", [("M", [("0_4",
    [{ district_id := "KEN.1_1", district := "Nairobi", region := "Nairobi",
       population := 5, pixel_count := 1 }])])])]

end PopPipeline

/-! ## Theorems: C4 and C7 -/

namespace PopPipeline

/-- C4: `get_cached_file(url, cache_dir, max_age)` returns the payload path
if and only if the payload file and its sidecar metadata record both exist,
the metadata is readable, and `now - captured_at < max_age` strictly; an
entry aged exactly `max_age` is expired, and corrupt metadata yields absent
rather than an error. -/
theorem get_cached_file_iff (dir : CacheDir) (url : String) (now max_age : ℚ) :
    ((get_cached_file dir url now max_age).isSome ↔
      ((dir.payloads (generate_cache_key url)).isSome ∧
        ∃ m, dir.metas (generate_cache_key url) = some (MetaFile.ok m) ∧
          now - m.timestamp < max_age)) ∧
    (∀ m, dir.metas (generate_cache_key url) = some (MetaFile.ok m) →
        now - m.timestamp = max_age →
        get_cached_file dir url now max_age = none) ∧
    (dir.metas (generate_cache_key url) = some MetaFile.corrupt →
        get_cached_file dir url now max_age = none) := by
  refine ⟨?_, ?_, ?_⟩
  · unfold get_cached_file
    cases hp : dir.payloads (generate_cache_key url) with
    | none =>
        cases hm : dir.metas (generate_cache_key url) with
        | none => simp
        | some mf => cases mf <;> simp
    | some pl =>
        cases hm : dir.metas (generate_cache_key url) with
        | none => simp
        | some mf =>
            cases mf with
            | ok m =>
                by_cases hage : now - m.timestamp < max_age
                · simp only [if_pos hage, Option.isSome_some, true_iff]
                  exact ⟨trivial, m, rfl, hage⟩
                · simp [hage]
            | corrupt => simp
  · intro m hm hage
    unfold get_cached_file
    rw [hm]
    cases hp : dir.payloads (generate_cache_key url) with
    | none => simp
    | some pl => simp [hage]
  · intro hm
    unfold get_cached_file
    rw [hm]
    cases hp : dir.payloads (generate_cache_key url) with
    | none => simp
    | some pl => simp

/-- Concrete instantiation of `get_cached_file_iff`: a one-entry cache whose
entry is fresh. -/
theorem get_cached_file_iff_witness :
    ((get_cached_file
        { payloads := fun k => if k = "u" then some [1] else none
          metas := fun k =>
            if k = "u" then some (MetaFile.ok { url := "u", timestamp := 0, size := 1 })
            else none }
        "u" 10 3600).isSome ↔
      (((fun k => if k = "u" then some [1] else none) (generate_cache_key "u")
          : Option (List Nat)).isSome ∧
        ∃ m, (if generate_cache_key "u" = "u" then
                some (MetaFile.ok { url := "u", timestamp := 0, size := 1 })
              else none) = some (MetaFile.ok m) ∧
          (10 : ℚ) - m.timestamp < 3600)) ∧
    (∀ m, (if generate_cache_key "u" = "u" then
              some (MetaFile.ok { url := "u", timestamp := 0, size := 1 })
            else none) = some (MetaFile.ok m) →
        (10 : ℚ) - m.timestamp = 3600 →
        get_cached_file
          { payloads := fun k => if k = "u" then some [1] else none
            metas := fun k =>
              if k = "u" then some (MetaFile.ok { url := "u", timestamp := 0, size := 1 })
              else none }
          "u" 10 3600 = none) ∧
    ((if generate_cache_key "u" = "u" then
        some (MetaFile.ok { url := "u", timestamp := 0, size := 1 })
      else none) = some MetaFile.corrupt →
        get_cached_file
          { payloads := fun k => if k = "u" then some [1] else none
            metas := fun k =>
              if k = "u" then some (MetaFile.ok { url := "u", timestamp := 0, size := 1 })
              else none }
          "u" 10 3600 = none) :=
  get_cached_file_iff _ "u" 10 3600

/-- C7 round-trip: a successful `download_file(url, cache_dir)` followed
immediately by `get_cached_file(url, cache_dir, max_age)` with `max_age > 0`
returns exactly the payload path `download_file` produced. -/
theorem download_then_get_cached (dir : CacheDir) (url : String)
    (chunks : List (List Nat)) (now max_age : ℚ) (hpos : 0 < max_age) :
    get_cached_file (download_file dir url chunks now).1 url now max_age =
      some (download_file dir url chunks now).2 := by
  simp [download_file, get_cached_file, hpos, sub_self]

/-- Concrete instantiation of `download_then_get_cached`. -/
theorem download_then_get_cached_witness :
    get_cached_file
        (download_file { payloads := fun _ => none, metas := fun _ => none }
          "http://x/a.tif" [[7, 7]] 100).1
        "http://x/a.tif" 100 3600 =
      some (download_file { payloads := fun _ => none, metas := fun _ => none }
          "http://x/a.tif" [[7, 7]] 100).2 :=
  download_then_get_cached _ _ _ _ _ (by norm_num)

/-! ## Theorems: C9 -/

/-- C9: `get_raster_url` is pure and deterministic — it is a Lean function of
its three arguments, performing no I/O by construction — and, on the fixed
enumerations, its value is exactly the template expansion
`{base_url}/{country}/v1.0/{sex}_{age_band}.tif`. -/
theorem get_raster_url_template (c s a : String)
    (hc : c ∈ COUNTRIES.map Prod.fst) (hs : s ∈ SEX_OPTIONS) (ha : a ∈ AGE_GROUPS) :
    get_raster_url c s a =
      WORLDPOP_BASE_URL ++ "/" ++ c ++ "/v1.0/" ++ s ++ "_" ++ a ++ ".tif" := by
  simp [get_raster_url, String.append_assoc]

/-- Concrete instantiation of `get_raster_url_template` at `(KEN, M, 0_4)`. -/
theorem get_raster_url_template_witness :
    get_raster_url "KEN" "M" "0_4" =
      WORLDPOP_BASE_URL ++ "/" ++ "KEN" ++ "/v1.0/" ++ "M" ++ "_" ++ "0_4" ++ ".tif" :=
  get_raster_url_template "KEN" "M" "0_4" (by decide) (by decide) (by decide)

/-! ## Theorems: C1

Helper lemmas: every entry `batch_load_rasters` stores has `data = some _`,
so the `failed_rasters` branch of `create_metadata_summary` is unreachable on
its output. -/

theorem summary_add_entries_failed (c s : String) (acc : MetadataSummary)
    (l : List (String × RasterInfo)) (h : ∀ p ∈ l, p.2.data.isSome) :
    (summary_add_entries c s acc l).failed_rasters = acc.failed_rasters := by
  induction l generalizing acc with
  | nil => rfl
  | cons p rest ih =>
      obtain ⟨a, ri⟩ := p
      have hd : ri.data.isSome := h (a, ri) (List.mem_cons_self _ _)
      cases hri : ri.data with
      | none => rw [hri] at hd; simp at hd
      | some g =>
          rw [summary_add_entries, hri]
          exact ih _ fun q hq => h q (List.mem_cons_of_mem _ hq)

theorem summary_add_sexes_failed (c : String) (acc : MetadataSummary)
    (l : List (String × List (String × RasterInfo)))
    (h : ∀ sp ∈ l, ∀ p ∈ sp.2, p.2.data.isSome) :
    (summary_add_sexes c acc l).failed_rasters = acc.failed_rasters := by
  induction l generalizing acc with
  | nil => rfl
  | cons sp rest ih =>
      obtain ⟨s, entries⟩ := sp
      rw [summary_add_sexes]
      rw [ih _ fun q hq => h q (List.mem_cons_of_mem _ hq)]
      exact summary_add_entries_failed c s acc entries
        (h (s, entries) (List.mem_cons_self _ _))

theorem summary_add_countries_failed (acc : MetadataSummary)
    (l : List (String × List (String × List (String × RasterInfo))))
    (h : ∀ cp ∈ l, ∀ sp ∈ cp.2, ∀ p ∈ sp.2, p.2.data.isSome) :
    (summary_add_countries acc l).failed_rasters = acc.failed_rasters := by
  induction l generalizing acc with
  | nil => rfl
  | cons cp rest ih =>
      obtain ⟨c, cd⟩ := cp
      rw [summary_add_countries]
      rw [ih _ fun q hq => h q (List.mem_cons_of_mem _ hq)]
      exact summary_add_sexes_failed c _ cd (h (c, cd) (List.mem_cons_self _ _))

theorem batch_load_all_loaded
    (load_raster : String → String → String → Option (Grid × Profile × Bounds))
    (countries age_groups sex_options : List String) :
    ∀ cp ∈ batch_load_rasters load_raster countries age_groups sex_options,
      ∀ sp ∈ cp.2, ∀ p ∈ sp.2, p.2.data.isSome := by
  intro cp hcp sp hsp p hp
  simp only [batch_load_rasters, List.mem_map] at hcp
  obtain ⟨c, -, rfl⟩ := hcp
  simp only [List.mem_map] at hsp
  obtain ⟨s, -, rfl⟩ := hsp
  simp only [List.mem_filterMap] at hp
  obtain ⟨a, -, ha⟩ := hp
  cases hl : load_raster c s a with
  | none => rw [hl] at ha; simp at ha
  | some t =>
      rw [hl] at ha
      obtain ⟨data, profile, bounds⟩ := t
      simp only [Option.some.injEq] at ha
      rw [← ha]
      rfl

/-- C1 fails on the code: `batch_load_rasters` inserts an entry only when a
load succeeds — the failure branch (`load_rasters.py:131`) only logs — so a
combination whose load fails is silently absent from the nested mapping
rather than flagged, and `create_metadata_summary` applied to any batch
output therefore always reports `failed_rasters = []`.  Evaluated here at
the failing input: one country `KEN`, one sex `M`, one age band `0_4`, with
the load failing for that combination. -/
theorem batch_load_drops_failed_combination :
    batch_load_rasters (fun _ _ _ => none) ["KEN"] ["0_4"] ["M"] =
        [("KEN", [("M", [])])] ∧
    (create_metadata_summary
        (batch_load_rasters (fun _ _ _ => none) ["KEN"] ["0_4"] ["M"])).failed_rasters
        = [] ∧
    ∀ load_raster countries age_groups sex_options,
      (create_metadata_summary
          (batch_load_rasters load_raster countries age_groups sex_options)).failed_rasters
        = [] := by
  refine ⟨rfl, rfl, ?_⟩
  intro load_raster countries age_groups sex_options
  exact summary_add_countries_failed _ _
    (batch_load_all_loaded load_raster countries age_groups sex_options)

/-! ## Theorems: C10 -/

/-- C10: `parse_filename` maps `M_80_plus.tif` to the display encoding
`age_group = "80+"`, which is not the raster naming `80_plus` of the
`AGE_GROUPS` enumeration, and `validate_metadata` on the parsed record
returns `False`. -/
theorem parse_80_plus_not_validated :
    parse_filename "M_80_plus.tif" =
      some { sex := "M", age_start := 80, age_end := "plus",
             age_group := "80+", filename := "M_80_plus.tif" } ∧
    ("80+" : String) ≠ "80_plus" ∧
    "80+" ∉ AGE_GROUPS ∧
    validate_metadata (parse_filename "M_80_plus.tif") = false := by
  refine ⟨by decide, by decide, by decide, by decide⟩

/-! ## Theorems: C5 -/

/-- C5: a district whose processing fails (the mask computation raises, e.g.
on a degenerate geometry) is skipped, and `summarize_raster_by_districts`
still returns exactly the per-district results of all the other districts,
in order — one district's failure neither aborts nor alters the rest. -/
theorem summarize_skips_failed_district
    (gm : String → Profile → Except String (List Bool))
    (admin : List (String × List DistrictBoundary))
    (raster : List ℚ) (profile : Profile) (country : String)
    (l1 l2 : List DistrictBoundary) (dbad : DistrictBoundary) (e : String)
    (hlook : admin.lookup country = some (l1 ++ dbad :: l2))
    (hfail : gm dbad.geometry profile = Except.error e) :
    summarize_raster_by_districts gm admin raster profile country =
      some (l1.filterMap (process_district gm raster profile) ++
        l2.filterMap (process_district gm raster profile)) := by
  have hbad : process_district gm raster profile dbad = none := by
    unfold process_district
    rw [hfail]
  unfold summarize_raster_by_districts
  rw [hlook]
  simp [List.filterMap_append, List.filterMap_cons, hbad]

/-- Concrete instantiation of `summarize_skips_failed_district`: three
districts, the middle one degenerate; the other two keep their sums. -/
theorem summarize_skips_failed_district_witness :
    summarize_raster_by_districts exMask exAdmin [5] exProfile "KEN" =
      some ([exDistrictA].filterMap (process_district exMask [5] exProfile) ++
        [exDistrictC].filterMap (process_district exMask [5] exProfile)) :=
  summarize_skips_failed_district exMask exAdmin [5] exProfile "KEN"
    [exDistrictA] [exDistrictC] exDistrictBad "degenerate geometry"
    (by decide) (by rfl)

/-! ## Theorems: C2, C3, C6

Shared lemma: everything `indicators_for` guarantees about an emitted row. -/

theorem indicators_for_spec (tbl : List CombinedRow) (k : GroupKey) (r : IndicatorRow)
    (h : indicators_for tbl k = some r) :
    r.country = k.1 ∧ r.district_id = k.2.1 ∧ r.district = k.2.2 ∧
    0 < sum_pop (group_rows tbl k) ∧
    r.total_population = sum_pop (group_rows tbl k) ∧
    r.male_population =
      sum_pop ((group_rows tbl k).filter fun x => decide (x.sex = "M")) ∧
    r.female_population =
      sum_pop ((group_rows tbl k).filter fun x => decide (x.sex = "F")) ∧
    r.sex_ratio =
      (if 0 < r.female_population then r.male_population / r.female_population else 0) := by
  simp only [indicators_for] at h
  split at h
  · cases h
    exact ⟨rfl, rfl, rfl, by assumption, rfl, rfl, rfl, rfl⟩
  · cases h

theorem sum_pop_nonneg (rows : List CombinedRow)
    (h : ∀ x ∈ rows, 0 ≤ x.population) : 0 ≤ sum_pop rows := by
  apply List.sum_nonneg
  intro q hq
  obtain ⟨x, hx, rfl⟩ := List.mem_map.1 hq
  exact h x hx

theorem calc_exTblM_eval : calculate_demographic_indicators exTblM = [exIndM] := by
  with_unfolding_all rfl

theorem calc_exTblF_eval : calculate_demographic_indicators exTblF = [exIndF] := by
  with_unfolding_all rfl

/-- C2 fails on the code: `calculate_demographic_indicators` appends a row
only under `total_pop > 0` (`summarize_by_district.py:189`), so a group
whose total population is 0 is dropped.  Concrete counterexample: a combined
table with one group of population 0 — the group key exists, yet the
indicator table is empty. -/
theorem zero_total_group_dropped_cex :
    group_keys exTblZero = [("KEN", "KEN.1_1", "Nairobi")] ∧
    calculate_demographic_indicators exTblZero = [] := by
  refine ⟨by decide, by with_unfolding_all rfl⟩

/-- C2 amended: a group with total population 0 yields no
`DemographicIndicatorRow` at all — every emitted row has positive total, and
no emitted row carries the key of a zero-total group. -/
theorem zero_total_groups_dropped (tbl : List CombinedRow) (k : GroupKey)
    (hsum : sum_pop (group_rows tbl k) = 0) (r : IndicatorRow)
    (hr : r ∈ calculate_demographic_indicators tbl) :
    0 < r.total_population ∧ (r.country, r.district_id, r.district) ≠ k := by
  unfold calculate_demographic_indicators at hr
  obtain ⟨k', hk', hik⟩ := List.mem_filterMap.1 hr
  obtain ⟨hc, hdid, hd, hpos, htot, -⟩ := indicators_for_spec tbl k' r hik
  have hkey : (r.country, r.district_id, r.district) = k' := by rw [hc, hdid, hd]
  constructor
  · rw [htot]; exact hpos
  · intro hcontra
    rw [hkey] at hcontra
    rw [hcontra, hsum] at hpos
    exact lt_irrefl 0 hpos

/-- Concrete instantiation of `zero_total_groups_dropped`. -/
theorem zero_total_groups_dropped_witness :
    0 < exIndM.total_population ∧
      (exIndM.country, exIndM.district_id, exIndM.district) ≠ ("UGA", "x", "y") :=
  zero_total_groups_dropped exTblM ("UGA", "x", "y") (by with_unfolding_all rfl)
    exIndM (by rw [calc_exTblM_eval]; exact List.mem_singleton_self _)

/-- C3: for every row of the demographic-indicator table, its
`total_population` is exactly the sum of `population` over all rows of the
combined table in that row's `(country, district_id, district)` group (the
combined rows carry the `DistrictCell` populations verbatim, so the
per-district sum of cell populations reconciles with the indicator total). -/
theorem total_population_reconciles (tbl : List CombinedRow) (r : IndicatorRow)
    (hr : r ∈ calculate_demographic_indicators tbl) :
    r.total_population =
      sum_pop (group_rows tbl (r.country, r.district_id, r.district)) := by
  unfold calculate_demographic_indicators at hr
  obtain ⟨k, hk, hik⟩ := List.mem_filterMap.1 hr
  obtain ⟨hc, hdid, hd, hpos, htot, -⟩ := indicators_for_spec tbl k r hik
  have hkey : (r.country, r.district_id, r.district) = k := by rw [hc, hdid, hd]
  rw [hkey, htot]

/-- Concrete instantiation of `total_population_reconciles`. -/
theorem total_population_reconciles_witness :
    exIndM.total_population =
      sum_pop (group_rows exTblM (exIndM.country, exIndM.district_id, exIndM.district)) :=
  total_population_reconciles exTblM exIndM
    (by rw [calc_exTblM_eval]; exact List.mem_singleton_self _)

/-- C6 fails on the code as an "exactly when": with one female row of
population 5 and no male rows, `male_pop / female_pop = 0/5 = 0`, so the
emitted `sex_ratio` is 0 while the female population is 5 ≠ 0. -/
theorem sex_ratio_zero_with_nonzero_female_cex :
    calculate_demographic_indicators exTblF = [exIndF] ∧
    exIndF.sex_ratio = 0 ∧ exIndF.female_population ≠ 0 := by
  refine ⟨calc_exTblF_eval, by decide, by decide⟩

/-- C6 amended: on tables with non-negative populations, the computed
`sex_ratio` is 0 whenever the female sum is 0 (a sentinel — the division is
performed only under the `female_pop > 0` guard, so no division by zero ever
occurs), but it is 0 exactly when the female sum is 0 OR the male sum is 0:
the "exactly when female = 0" direction of the claim fails. -/
theorem sex_ratio_zero_iff (tbl : List CombinedRow)
    (hnn : ∀ row ∈ tbl, 0 ≤ row.population) (r : IndicatorRow)
    (hr : r ∈ calculate_demographic_indicators tbl) :
    (r.female_population = 0 → r.sex_ratio = 0) ∧
    (r.sex_ratio =
      if 0 < r.female_population then r.male_population / r.female_population else 0) ∧
    (r.sex_ratio = 0 ↔ r.female_population = 0 ∨ r.male_population = 0) := by
  unfold calculate_demographic_indicators at hr
  obtain ⟨k, hk, hik⟩ := List.mem_filterMap.1 hr
  obtain ⟨-, -, -, -, -, hmale, hfem, hratio⟩ := indicators_for_spec tbl k r hik
  have hfnn : 0 ≤ r.female_population := by
    rw [hfem]
    apply sum_pop_nonneg
    intro x hx
    have hx1 : x ∈ group_rows tbl k := List.mem_of_mem_filter hx
    unfold group_rows at hx1
    exact hnn x (List.mem_of_mem_filter hx1)
  refine ⟨?_, hratio, ?_⟩
  · intro h0
    rw [hratio, h0]
    simp
  · rw [hratio]
    by_cases hf : 0 < r.female_population
    · rw [if_pos hf]
      constructor
      · intro hdiv
        exact Or.inr ((div_eq_zero_iff.1 hdiv).resolve_right (ne_of_gt hf))
      · rintro (h0 | h0)
        · exact absurd h0 (ne_of_gt hf)
        · rw [h0, zero_div]
    · rw [if_neg hf]
      have h0 : r.female_population = 0 := le_antisymm (not_lt.1 hf) hfnn
      simp [h0]

/-- Concrete instantiation of `sex_ratio_zero_iff` on the all-female table. -/
theorem sex_ratio_zero_iff_witness :
    (exIndF.female_population = 0 → exIndF.sex_ratio = 0) ∧
    (exIndF.sex_ratio =
      if 0 < exIndF.female_population then
        exIndF.male_population / exIndF.female_population else 0) ∧
    (exIndF.sex_ratio = 0 ↔
      exIndF.female_population = 0 ∨ exIndF.male_population = 0) :=
  sex_ratio_zero_iff exTblF (by decide) exIndF
    (by rw [calc_exTblF_eval]; exact List.mem_singleton_self _)

/-! ## Theorems: C8 -/

/-- C8 fails on the code: the combined table's columns are not the five
`{country, district, age_group, sex, population}` — the record dict also
carries `district_id` and `region`.  Concrete counterexample on a one-row
nested summaries input. -/
theorem combined_columns_cex :
    combined_df_columns (create_combined_summary exSummaries) ≠
        ["country", "district", "age_group", "sex", "population"] ∧
    "district_id" ∈ combined_df_columns (create_combined_summary exSummaries) ∧
    "district_id" ∉ ["country", "district", "age_group", "sex", "population"] := by
  refine ⟨by decide, by decide, by decide⟩

theorem foldl_add_keys_const (rest : List CombinedRow) :
    List.foldl (fun acc rec => add_keys acc (rec.map Prod.fst))
      ["country", "sex", "age_group", "district_id", "district", "region", "population"]
      (rest.map row_record) =
      ["country", "sex", "age_group", "district_id", "district", "region", "population"] := by
  induction rest with
  | nil => rfl
  | cons r t ih =>
      simp only [List.map_cons, List.foldl_cons]
      exact ih

/-- C8 amended: for every nested summaries input that yields at least one
record, the combined table has exactly the seven columns
`{country, sex, age_group, district_id, district, region, population}`, in
the record dict's insertion order. -/
theorem combined_columns_exact
    (summaries : List (String × List (String × List (String × List DistrictRec))))
    (hne : create_combined_summary summaries ≠ []) :
    combined_df_columns (create_combined_summary summaries) =
      ["country", "sex", "age_group", "district_id", "district", "region", "population"] := by
  unfold combined_df_columns df_columns
  cases hrs : create_combined_summary summaries with
  | nil => exact absurd hrs hne
  | cons r rest =>
      simp only [List.map_cons, List.foldl_cons]
      exact foldl_add_keys_const rest

/-- Concrete instantiation of `combined_columns_exact`. -/
theorem combined_columns_exact_witness :
    combined_df_columns (create_combined_summary exSummaries) =
      ["country", "sex", "age_group", "district_id", "district", "region", "population"] :=
  combined_columns_exact exSummaries (by decide)

end PopPipeline
